import Mathlib

/-!
Verification of the payment-flow orchestration core.

Shallow embedding of the payment orchestration core of the repository
(`src/integration/payment_orchestrator.py`, `src/integration/models.py`,
`src/mercadopago/models.py`, `src/mercadopago/client.py`, `src/bird/client.py`,
`src/bird/models.py`) together with proofs about the behaviour the
specification ascribes to it.

Conventions of the embedding:
* Python `Decimal` amounts are embedded as `ℚ` (`Decimal(str(x))` is exact and
  `Decimal` arithmetic on such values is exact).
* timestamps (`datetime.now(...)`) are abstract instants embedded as `Nat`;
  the second-granularity `strftime("%Y%m%d_%H%M%S")` string of an invocation
  is carried separately as a `String`.
* a fallible Python call is embedded as an `Option`/`Except` value; an
  exception raised by an external collaborator is an oracle parameter of the
  embedded operation.
* the DynamoDB-backed persistence layer (`conversation_manager` module) is
  referenced but absent from the sources; its operations are modelled from the
  spec, and each such definition is marked `Modelled from the spec:` below.
-/

/-- Embeds `PaymentFlowStatus` enumeration (`integration/models.py`). -/
inductive PaymentFlowStatus where
  | initiated
  | preference_created
  | link_sent
  | payment_pending
  | payment_approved
  | payment_failed
  | cancelled
  | expired
  | completed
  | failed
deriving DecidableEq, Repr

/-- Embeds `PaymentStatus` enumeration (`mercadopago/models.py`). -/
inductive PaymentStatus where
  | pending
  | approved
  | authorized
  | in_process
  | in_mediation
  | rejected
  | cancelled
  | refunded
  | charged_back
deriving DecidableEq, Repr

/-- The `PaymentStatus(payment_status)` enum constructor: `none` models the
`ValueError` raised on a string that is not a member value. -/
def PaymentStatus.ofString (s : String) : Option PaymentStatus :=
  if s = "pending" then some .pending
  else if s = "approved" then some .approved
  else if s = "authorized" then some .authorized
  else if s = "in_process" then some .in_process
  else if s = "in_mediation" then some .in_mediation
  else if s = "rejected" then some .rejected
  else if s = "cancelled" then some .cancelled
  else if s = "refunded" then some .refunded
  else if s = "charged_back" then some .charged_back
  else none

/-- Embeds `is_payment_successful` (`mercadopago/models.py`). -/
def is_payment_successful : PaymentStatus → Bool
  | .approved | .authorized => true
  | _ => false

/-- Embeds `is_payment_failed` (`mercadopago/models.py`). -/
def is_payment_failed : PaymentStatus → Bool
  | .rejected | .cancelled => true
  | _ => false

/-- Embeds `is_payment_pending` (`mercadopago/models.py`). -/
def is_payment_pending : PaymentStatus → Bool
  | .pending | .in_process => true
  | _ => false

/-- The `status_messages` dictionary of `get_payment_status_message`, with the
dictionary `.get` default for the statuses that are absent from it. -/
def statusMessageBase : PaymentStatus → String
  | .approved => "¡Pago aprobado! Tu compra ha sido procesada exitosamente."
  | .pending => "Tu pago está siendo procesado. Te notificaremos cuando esté listo."
  | .in_process => "Tu pago está en proceso de verificación."
  | .rejected => "Tu pago fue rechazado. Por favor intenta con otro método de pago."
  | .cancelled => "El pago fue cancelado."
  | .refunded => "Tu pago ha sido reembolsado."
  | .charged_back => "Se ha procesado una devolución del cargo."
  | .authorized | .in_mediation => "Estado de pago desconocido."

/-- The `detail_messages` dictionary of `get_payment_status_message`. -/
def rejectionDetailMessages : List (String × String) :=
  [("cc_rejected_insufficient_amount", "Fondos insuficientes en la tarjeta."),
   ("cc_rejected_bad_filled_card_number", "Número de tarjeta incorrecto."),
   ("cc_rejected_bad_filled_date", "Fecha de vencimiento incorrecta."),
   ("cc_rejected_bad_filled_security_code", "Código de seguridad incorrecto."),
   ("cc_rejected_card_disabled", "La tarjeta está deshabilitada."),
   ("cc_rejected_call_for_authorize", "Debes autorizar el pago con tu banco."),
   ("cc_rejected_duplicated_payment", "Pago duplicado detectado.")]

/-- Embeds `get_payment_status_message` (`mercadopago/models.py`).  The Python
`status_detail` argument is `Optional[str]` and is tested for truthiness, so
`None` and `""` behave identically; the embedding uses `""` for both. -/
def get_payment_status_message (status : PaymentStatus) (status_detail : String) : String :=
  let base := statusMessageBase status
  if status = PaymentStatus.rejected ∧ status_detail ≠ "" then
    match rejectionDetailMessages.lookup status_detail with
    | some m => base ++ " " ++ m
    | none => base
  else base

/-! Section: Phone normalization -/

/-- Embeds the digit filters used by both phone validators (the str.isdigit
join and the non-digit regex substitution): both keep exactly the digit
characters of the string. -/
def cleanDigits (s : String) : String :=
  ⟨s.data.filter Char.isDigit⟩

/-- Embeds `clean_phone.startswith("57")`. -/
def startsWith57 (s : String) : Bool :=
  match s.data with
  | c₁ :: c₂ :: _ => c₁ == '5' && c₂ == '7'
  | _ => false

/-- Embeds `PaymentFlow.validate_phone` (`integration/models.py`): accepts the value
unchanged when its digits form `57` + 10 digits, otherwise raises (`none`). -/
def PaymentFlow.validate_phone (v : String) : Option String :=
  let clean := cleanDigits v
  if startsWith57 clean ∧ clean.data.length = 12 then some v else none

/-- Embeds `Customer.validate_phone` (`mercadopago/models.py`): normalizes to
`"+57" ++ 10 digits`, adding the `57` prefix to a bare 10-digit number, and
raises (`none`) otherwise. -/
def Customer.validate_phone (v : String) : Option String :=
  let clean := cleanDigits v
  if startsWith57 clean ∧ clean.data.length = 12 then
    some ⟨'+' :: clean.data⟩
  else if clean.data.length = 10 then
    some ⟨'+' :: '5' :: '7' :: clean.data⟩
  else none

/-! Section: Items and money -/

/-- An entry of the untyped `items` list handed to the orchestrator
(the dict keys the core reads: `id`, `title`, `description`, `quantity`,
`unit_price`). -/
structure Item where
  id : String
  title : String
  description : Option String := none
  quantity : Nat
  unit_price : ℚ
deriving DecidableEq, Repr

/-- Embeds `PaymentFlow.total_amount` (`integration/models.py`):
`sum(Decimal(str(item["unit_price"])) * item["quantity"] for item in items)`.
Python `sum` folds from the left starting at `0`. -/
def totalAmount (items : List Item) : ℚ :=
  items.foldl (fun acc it => acc + it.unit_price * it.quantity) 0

/-- Python `round(Decimal, 2)`: quantization to 2 decimal places with the
`ROUND_HALF_EVEN` rule. -/
def roundHalfEven (q : ℚ) : ℤ :=
  let f := ⌊q⌋
  let r := q - f
  if r < 1 / 2 then f
  else if 1 / 2 < r then f + 1
  else if f % 2 = 0 then f else f + 1

/-- Embeds `round(v, 2)` on a `Decimal`. -/
def round2 (q : ℚ) : ℚ :=
  (roundHalfEven (q * 100) : ℚ) / 100

/-! Section: Request-side pydantic models -/

/-- Projection of the untyped `customer_info` dict: the keys the core reads
(`name`, `email`). -/
structure CustomerInfo where
  name : Option String := none
  email : Option String := none
deriving DecidableEq, Repr

/-- Embeds `Customer` (`mercadopago/models.py`), restricted to the fields the
orchestrator populates in `_build_payment_request`. -/
structure Customer where
  phone : String
  name : Option String := none
  email : Option String := none
deriving DecidableEq, Repr

/-- Embeds the regular expression of the email validator in
`Customer.validate_email` as a decision procedure: a nonempty local part over
its character class, a single at sign, then a domain whose final dot is
followed by at least two alphabetic characters. -/
def emailOk (e : String) : Bool :=
  let localChar : Char → Bool := fun c =>
    c.isAlphanum || c == '.' || c == '_' || c == '%' || c == '+' || c == '-'
  let domainChar : Char → Bool := fun c => c.isAlphanum || c == '.' || c == '-'
  match e.data.span (· ≠ '@') with
  | (localPart, '@' :: dom) =>
    (!localPart.isEmpty) && localPart.all localChar &&
      (match (dom.reverse.span Char.isAlpha) with
       | (tld, '.' :: preR) => decide (2 ≤ tld.length) && (!preR.isEmpty) && preR.all domainChar
       | _ => false)
  | _ => false

/-- Embeds `PaymentItem` construction (`mercadopago/models.py`): the field
constraints (`title` ≤ 256, `description` ≤ 600, `1 ≤ quantity ≤ 100`,
`unit_price > 0`) and the `validate_unit_price` rounding to 2 decimals.
`none` models the pydantic `ValidationError`. -/
def mkPaymentItem (it : Item) : Option Item :=
  if it.title.length ≤ 256 ∧
     it.description.all (fun d => decide (d.length ≤ 600)) = true ∧
     1 ≤ it.quantity ∧ it.quantity ≤ 100 ∧ 0 < it.unit_price then
    some { it with unit_price := round2 it.unit_price }
  else none

/-- Embeds `Customer` construction in `_build_payment_request`: the phone is
normalized by `Customer.validate_phone`, the optional name is bounded by
`max_length=128` and the optional email by `validate_email`. -/
def mkCustomer (phone : String) (info : CustomerInfo) : Option Customer :=
  match Customer.validate_phone phone with
  | none => none
  | some p =>
    if info.name.all (fun n => decide (n.length ≤ 128)) = true ∧
       info.email.all emailOk = true then
      some { phone := p, name := info.name, email := info.email }
    else none

/-- Embeds `PaymentRequest` (`mercadopago/models.py`), restricted to the fields the
core reads (the static `metadata` dict is dropped). -/
structure PaymentRequest where
  items : List Item
  customer : Customer
  conversation_id : String
deriving DecidableEq, Repr

/-- Embeds `sum(item.unit_price * item.quantity for item in v)` of
`validate_items_total`. -/
def requestTotal (items : List Item) : ℚ :=
  items.foldl (fun acc it => acc + it.unit_price * it.quantity) 0

/-- Embeds `_build_payment_request` (`payment_orchestrator.py`) together with the
pydantic validation it triggers, in source order: the `PaymentItem`s are
constructed first, then the `Customer`, then `PaymentRequest` with
`min_items=1`, `max_items=50`, `conversation_id` ≤ 128 and
`validate_items_total` (`0 < total ≤ 999999999`).  `none` models a pydantic
`ValidationError` escaping the helper. -/
def mkPaymentRequest (conversation_id customer_phone : String)
    (items : List Item) (info : CustomerInfo) : Option PaymentRequest :=
  match items.mapM mkPaymentItem with
  | none => none
  | some pitems =>
    match mkCustomer customer_phone info with
    | none => none
    | some cust =>
      if 1 ≤ pitems.length ∧ pitems.length ≤ 50 ∧ conversation_id.length ≤ 128 ∧
         0 < requestTotal pitems ∧ requestTotal pitems ≤ 999999999 then
        some { items := pitems, customer := cust, conversation_id := conversation_id }
      else none

/-! Section: Flow and conversation records -/

/-- Projection of the webhook `payment_data` dict: the keys the orchestrator
reads (`status_detail` with default `""`, `authorization_code`). -/
structure PaymentData where
  status_detail : String := ""
  authorization_code : Option String := none
deriving DecidableEq, Repr

/-- The `metadata` dict of a `PaymentFlow`: the keys the core writes
(`cancellation_reason`, `cancelled_at`, retry lineage). -/
structure FlowMetadata where
  cancellation_reason : Option String := none
  cancelled_at : Option Nat := none
  original_flow_id : Option String := none
  retry_attempt : Option Nat := none
deriving DecidableEq, Repr

/-- Embeds `PaymentFlow` (`integration/models.py`). -/
structure PaymentFlow where
  flow_id : String
  conversation_id : String
  customer_phone : String
  items : List Item
  customer_info : CustomerInfo := {}
  payment_id : Option String := none
  transaction_id : Option String := none
  checkout_url : Option String := none
  status : PaymentFlowStatus
  payment_status : Option String := none
  created_at : Nat
  updated_at : Option Nat := none
  expires_at : Option Nat := none
  payment_data : Option PaymentData := none
  metadata : FlowMetadata := {}
deriving DecidableEq, Repr

/-- Embeds `PaymentFlow.total_amount` (`integration/models.py`). -/
def PaymentFlow.total_amount (f : PaymentFlow) : ℚ :=
  totalAmount f.items

/-- Embeds `PaymentFlow.is_active` (`integration/models.py`): the non-terminal
statuses. -/
def PaymentFlow.is_active (f : PaymentFlow) : Bool :=
  match f.status with
  | .initiated | .preference_created | .link_sent | .payment_pending => true
  | _ => false

/-- Embeds `ConversationContext` (`bird/models.py`), restricted to the fields the
orchestrator reads and writes; the free-form `metadata` dict is embedded as
the association list of its string-valued entries. -/
structure ConversationContext where
  conversation_id : String
  customer_phone : String
  current_state : String := "browsing"
  cart_items : List Item := []
  customer_info : CustomerInfo := {}
  last_activity : Nat := 0
  metadata : List (String × String) := []
deriving DecidableEq, Repr

/-- Embeds `ConversationContext.set_state` (`bird/models.py`). -/
def ConversationContext.set_state (c : ConversationContext) (state : String)
    (now : Nat) : ConversationContext :=
  { c with current_state := state, last_activity := now }

/-- Embeds `ConversationContext.clear_cart` (`bird/models.py`). -/
def ConversationContext.clear_cart (c : ConversationContext) (now : Nat) :
    ConversationContext :=
  { c with cart_items := [], last_activity := now }

/-- The two shared stores seen by the orchestrator: the Payment Flow Store
and the Conversation Store. -/
structure OrchState where
  flows : List PaymentFlow
  convs : List ConversationContext
deriving DecidableEq, Repr

/-- Modelled from the spec: Payment Flow Store `get_by_payment_id` (the
`_get_payment_flow_by_payment_id` body is a placeholder, its DynamoDB
implementation living in the `conversation_manager` module absent from the
sources). -/
def get_by_payment_id (st : OrchState) (pid : String) : Option PaymentFlow :=
  st.flows.find? fun f => f.payment_id == some pid

/-- Modelled from the spec: Payment Flow Store `get(flow_id)` (placeholder
`_get_payment_flow`). -/
def getFlow (st : OrchState) (flow_id : String) : Option PaymentFlow :=
  st.flows.find? fun f => f.flow_id == flow_id

/-- Modelled from the spec: Payment Flow Store `update(flow)` keyed by
`flow_id` (placeholder `_update_payment_flow`). -/
def storeUpdateFlow (st : OrchState) (f : PaymentFlow) : OrchState :=
  { st with flows := st.flows.map fun g => if g.flow_id == f.flow_id then f else g }

/-- Modelled from the spec: Payment Flow Store `put(flow)` (placeholder
`_store_payment_flow`). -/
def storePutFlow (st : OrchState) (f : PaymentFlow) : OrchState :=
  { st with flows := st.flows ++ [f] }

/-- Modelled from the spec: `_update_payment_flow_status(flow_id, status)`
(placeholder; a best-effort status write, a no-op on an unknown id). -/
def updateFlowStatus (st : OrchState) (flow_id : String)
    (status : PaymentFlowStatus) : OrchState :=
  { st with flows := st.flows.map fun g =>
      if g.flow_id == flow_id then { g with status := status } else g }

/-- Modelled from the spec: Conversation Manager
`update_conversation_state(id, new_state, extra_data)` — read-modify-write of
the stored context via `ConversationContext.set_state`, recording the
string-valued `extra_data` entries in the context metadata; a benign no-op for
an unknown conversation id. -/
def update_conversation_state (st : OrchState) (cid new_state : String)
    (extra : List (String × String)) (now : Nat) : OrchState :=
  { st with convs := st.convs.map fun c =>
      if c.conversation_id == cid then
        { c.set_state new_state now with metadata := extra ++ c.metadata }
      else c }

/-- Modelled from the spec: Conversation Manager `clear_cart(id)` via
`ConversationContext.clear_cart`. -/
def managerClearCart (st : OrchState) (cid : String) (now : Nat) : OrchState :=
  { st with convs := st.convs.map fun c =>
      if c.conversation_id == cid then c.clear_cart now else c }

/-- Modelled from the spec: Conversation Manager `update_last_activity(id)`. -/
def update_last_activity (st : OrchState) (cid : String) (now : Nat) : OrchState :=
  { st with convs := st.convs.map fun c =>
      if c.conversation_id == cid then { c with last_activity := now } else c }

/-! Section: Error taxonomy and gateway response -/

/-- The exception kinds distinguishable at the orchestrator boundary:
a pydantic `ValidationError` raised by a model constructor, a
`PaymentError(message, code)` (whose `ValidationError` subclass carries code
`"VALIDATION_ERROR"`), a `BirdError`, and an `IntegrationError(message)`. -/
inductive PyErr where
  | pydanticValidation
  | paymentError (code : String)
  | birdError
  | integrationError (message : String)
deriving DecidableEq, Repr

/-- Whether an exception is the `ValidationError` of the taxonomy in the spec,
under either reading: the `ValidationError` subclass of
`PaymentError` (code `"VALIDATION_ERROR"`) or a bare pydantic
`ValidationError`. -/
def isValidationErr : PyErr → Bool
  | .pydanticValidation => true
  | .paymentError code => code == "VALIDATION_ERROR"
  | _ => false

/-- Embeds `PaymentResponse` (`mercadopago/models.py`), restricted to the fields the
orchestrator copies into the flow. -/
structure PaymentResponse where
  id : String
  checkout_url : String
  transaction_id : String
  expires_at : Nat
deriving DecidableEq, Repr

/-! Section: Flow-id generation -/

/-- One invocation of a flow-creating operation: the wall-clock second
formatted by `datetime.now().strftime("%Y%m%d_%H%M%S")` and the fresh
`str(uuid4())` draw available to that invocation. -/
structure Invocation where
  ts : String
  uuid : String
deriving DecidableEq, Repr

/-- Embeds the flow id built inline by `initiate_payment_flow`
(`payment_orchestrator.py` line 62): the literal flow marker, the
second-granular strftime timestamp and the conversation id, joined by
underscores. -/
def mkOrchFlowId (ts conversation_id : String) : String :=
  "flow_" ++ ts ++ "_" ++ conversation_id

/-- Embeds the flow id of `initiate_payment_flow` as a function of the
invocation: the random draw of the invocation is not consulted. -/
def orchFlowId (inv : Invocation) (conversation_id : String) : String :=
  mkOrchFlowId inv.ts conversation_id

/-- Embeds `create_payment_flow_id` (`integration/models.py`): the flow
marker, timestamp, conversation id and the first 8 characters of a fresh
uuid4 draw, joined by underscores. -/
def create_payment_flow_id (inv : Invocation) (conversation_id : String) : String :=
  "flow_" ++ inv.ts ++ "_" ++ conversation_id ++ "_" ++ ⟨inv.uuid.data.take 8⟩

/-! Section: initiate_payment_flow -/

/-- The `except` block of `initiate_payment_flow`: best-effort mark of the
flow as `failed` (a persistence failure there is swallowed), then re-raise of
`PaymentError`/`BirdError`/`IntegrationError` unchanged and wrapping of any
other exception into a generic `IntegrationError`. -/
def initiateExcept (st : OrchState) (flow_id : String) (e : PyErr) :
    Except PyErr PaymentFlow × OrchState :=
  let st' := updateFlowStatus st flow_id .failed
  match e with
  | .paymentError code => (.error (.paymentError code), st')
  | .birdError => (.error .birdError, st')
  | .integrationError m => (.error (.integrationError m), st')
  | .pydanticValidation =>
    (.error (.integrationError "Failed to initiate payment flow"), st')

/-- Embeds `initiate_payment_flow` (`payment_orchestrator.py`).  Oracle inputs:
`gw` is the outcome of `MercadoPagoClient.create_payment_preference` (which
raises only `PaymentError`), `sendOk` the boolean returned by
`BirdAPIClient.send_payment_link_message` (which catches its own exceptions
and never raises), `now` the current instant and `ts` its
`strftime("%Y%m%d_%H%M%S")` rendering. -/
def initiate_payment_flow (st : OrchState) (conversation_id customer_phone : String)
    (items : List Item) (customer_info : CustomerInfo)
    (gw : Except PyErr PaymentResponse) (sendOk : Bool) (now : Nat) (ts : String) :
    Except PyErr PaymentFlow × OrchState :=
  let flow_id := mkOrchFlowId ts conversation_id
  match PaymentFlow.validate_phone customer_phone with
  | none => initiateExcept st flow_id .pydanticValidation
  | some _ =>
    let payment_flow : PaymentFlow :=
      { flow_id := flow_id, conversation_id := conversation_id,
        customer_phone := customer_phone, items := items,
        customer_info := customer_info, status := .initiated, created_at := now }
    let st1 := update_conversation_state st conversation_id "payment_requested"
      [("payment_flow_id", flow_id)] now
    match mkPaymentRequest conversation_id customer_phone items customer_info with
    | none => initiateExcept st1 flow_id .pydanticValidation
    | some _ =>
      match gw with
      | .error e => initiateExcept st1 flow_id e
      | .ok resp =>
        let flow2 := { payment_flow with
          payment_id := some resp.id, transaction_id := some resp.transaction_id,
          checkout_url := some resp.checkout_url, expires_at := some resp.expires_at,
          status := .preference_created }
        let st2 := storePutFlow st1 flow2
        if sendOk then
          let flow3 := { flow2 with status := PaymentFlowStatus.link_sent }
          (.ok flow3, updateFlowStatus st2 flow_id .link_sent)
        else
          let st3 := updateFlowStatus st2 flow_id .failed
          initiateExcept st3 flow_id
            (.integrationError "Failed to send payment link via WhatsApp")

/-! Section: process_payment_status_update -/

/-- Embeds `_handle_payment_success` (`payment_orchestrator.py`): the confirmation
send returns `sendOk` and is discarded, then the conversation moves to
`payment_completed` and the cart is cleared. -/
def handle_payment_success (st : OrchState) (flow : PaymentFlow) (_sendOk : Bool)
    (now : Nat) : OrchState :=
  let st1 := update_conversation_state st flow.conversation_id "payment_completed"
    [("completed_flow_id", flow.flow_id)] now
  managerClearCart st1 flow.conversation_id now

/-- Embeds `_handle_payment_failure` (`payment_orchestrator.py`): the failure reason
is computed by `get_payment_status_message` with the status hard-wired to
`PaymentStatus.REJECTED`, the failure send returns `sendOk` and is discarded,
and the conversation moves to `payment_failed`. -/
def handle_payment_failure (st : OrchState) (flow : PaymentFlow)
    (payment_data : PaymentData) (_sendOk : Bool) (now : Nat) : OrchState :=
  let failure_reason := get_payment_status_message .rejected payment_data.status_detail
  update_conversation_state st flow.conversation_id "payment_failed"
    [("failed_flow_id", flow.flow_id), ("failure_reason", failure_reason)] now

/-- Embeds `_handle_payment_pending` (`payment_orchestrator.py`). -/
def handle_payment_pending (st : OrchState) (flow : PaymentFlow) (now : Nat) :
    OrchState :=
  update_conversation_state st flow.conversation_id "payment_pending"
    [("pending_flow_id", flow.flow_id)] now

/-- Embeds `process_payment_status_update` (`payment_orchestrator.py`).  `sendOk` is
the boolean outcome of the outbound message of the branch (the Bird client catches
its own exceptions and returns a boolean, which the handlers discard); `now`
is the `datetime.now(timezone.utc)` instant.  An unknown `payment_status`
string makes `PaymentStatus(payment_status)` raise `ValueError`, which the
outer handler turns into `False` before any store write. -/
def process_payment_status_update (st : OrchState) (payment_id payment_status : String)
    (payment_data : PaymentData) (sendOk : Bool) (now : Nat) : Bool × OrchState :=
  match get_by_payment_id st payment_id with
  | none => (true, st)
  | some payment_flow =>
    let flow1 := { payment_flow with
      payment_status := some payment_status, payment_data := some payment_data,
      updated_at := some now }
    match PaymentStatus.ofString payment_status with
    | none => (false, st)
    | some ps =>
      if is_payment_successful ps then
        let flow2 := { flow1 with status := PaymentFlowStatus.payment_approved }
        (true, storeUpdateFlow (handle_payment_success st flow2 sendOk now) flow2)
      else if is_payment_failed ps then
        let flow2 := { flow1 with status := PaymentFlowStatus.payment_failed }
        (true, storeUpdateFlow (handle_payment_failure st flow2 payment_data sendOk now) flow2)
      else if is_payment_pending ps then
        let flow2 := { flow1 with status := PaymentFlowStatus.payment_pending }
        (true, storeUpdateFlow (handle_payment_pending st flow2 now) flow2)
      else
        (true, storeUpdateFlow st flow1)

/-- The flow status written by the classification step of
`process_payment_status_update` given the parsed webhook status. -/
def classifyStatus (ps : PaymentStatus) (old : PaymentFlowStatus) : PaymentFlowStatus :=
  if is_payment_successful ps then .payment_approved
  else if is_payment_failed ps then .payment_failed
  else if is_payment_pending ps then .payment_pending
  else old

/-! Section: cancel_payment_flow -/

/-- Embeds `cancel_payment_flow` (`payment_orchestrator.py`).  `gatewayOk` is the
boolean outcome of `MercadoPagoClient.cancel_payment_preference` (which
catches its own exceptions and never raises); the orchestrator discards it. -/
def cancel_payment_flow (st : OrchState) (flow_id reason : String)
    (_gatewayOk : Bool) (now : Nat) : Bool × OrchState :=
  match getFlow st flow_id with
  | none => (false, st)
  | some payment_flow =>
    let f : PaymentFlow := { payment_flow with
      status := PaymentFlowStatus.cancelled,
      metadata := { payment_flow.metadata with
        cancellation_reason := some reason, cancelled_at := some now } }
    let st1 := storeUpdateFlow st f
    let st2 := update_conversation_state st1 payment_flow.conversation_id "browsing"
      [("cancelled_flow_id", flow_id)] now
    (true, st2)

/-! Section: handle_conversation_message -/

/-- Python `str.lower()` as used on the inbound message text (character-wise
lowercasing; the keyword sets are pure ASCII). -/
def strToLower (s : String) : String :=
  ⟨s.data.map Char.toLower⟩

/-- Projection of the Bird webhook `message_data` dict: the keys the
orchestrator reads (`content.text`, `sender.identifier_value`). -/
structure MessageData where
  text : String := ""
  sender : String := ""
deriving DecidableEq, Repr

/-- Contiguous-substring test on character lists (the Python `in` operator on
strings). -/
def hasInfix (hay needle : List Char) : Bool :=
  needle.isPrefixOf hay ||
    match hay with
    | [] => false
    | _ :: t => hasInfix t needle

/-- The payment-intent keyword set (`_is_payment_intent`). -/
def payment_keywords : List String :=
  ["pagar", "comprar", "precio", "costo", "checkout", "pago"]

/-- The cart-action keyword set (`_is_cart_action`). -/
def cart_keywords : List String :=
  ["carrito", "agregar", "quitar", "vaciar", "eliminar"]

/-- The product-inquiry keyword set (`_is_product_inquiry`). -/
def product_keywords : List String :=
  ["producto", "talla", "color", "disponible", "stock"]

/-- Embeds `_is_payment_intent` (`payment_orchestrator.py`). -/
def is_payment_intent (t : String) : Bool :=
  payment_keywords.any fun k => hasInfix t.data k.data

/-- Embeds `_is_cart_action` (`payment_orchestrator.py`). -/
def is_cart_action (t : String) : Bool :=
  cart_keywords.any fun k => hasInfix t.data k.data

/-- Embeds `_is_product_inquiry` (`payment_orchestrator.py`). -/
def is_product_inquiry (t : String) : Bool :=
  product_keywords.any fun k => hasInfix t.data k.data

/-- The response actions `handle_conversation_message` can return. -/
inductive ChatAction where
  | text (message : String)
  | payment_initiated (flow_id : String)
deriving DecidableEq, Repr

/-- Embeds `_handle_payment_intent` (`payment_orchestrator.py`): an empty cart gets
an informational reply; otherwise `initiate_payment_flow` runs and its
exception, if any, is caught here and turned into the generic apology. -/
def handle_payment_intent (st : OrchState) (context : ConversationContext)
    (gw : Except PyErr PaymentResponse) (sendOk : Bool) (now : Nat) (ts : String) :
    Option ChatAction × OrchState :=
  if context.cart_items.isEmpty then
    (some (.text "Tu carrito está vacío. ¿Te gustaría ver nuestros productos?"), st)
  else
    match initiate_payment_flow st context.conversation_id context.customer_phone
      context.cart_items context.customer_info gw sendOk now ts with
    | (.ok f, st') => (some (.payment_initiated f.flow_id), st')
    | (.error _, st') =>
      (some (.text "Hubo un error al procesar tu pago. Por favor intenta de nuevo."), st')

/-- Embeds `_handle_cart_action` (`payment_orchestrator.py`). -/
def handle_cart_action (st : OrchState) (context : ConversationContext)
    (message_text : String) (now : Nat) : Option ChatAction × OrchState :=
  if hasInfix message_text.data "vaciar".data || hasInfix message_text.data "eliminar".data then
    (some (.text "Tu carrito ha sido vaciado."), managerClearCart st context.conversation_id now)
  else (none, st)

/-- The fixed `_handle_product_inquiry` reply. -/
def productInquiryReply : String :=
  "¿En qué producto estás interesado? Puedo ayudarte con información sobre tallas, colores y disponibilidad."

/-- Embeds `handle_conversation_message` (`payment_orchestrator.py`).  Oracle
inputs: `ctxFail` (the context lookup/creation raised), `gw`/`sendOk` (the
adapter outcomes of a nested `initiate_payment_flow`), `actFail` (the
`update_last_activity` call raised).  Every exception reaching the outer
`try` yields `(none, ·)`; context creation for an unseen conversation id is
modelled from the spec (`create_conversation_context(id, phone)` appended to
the Conversation Store). -/
def handle_conversation_message (st : OrchState) (conversation_id : String)
    (msg : MessageData) (ctxFail : Bool) (gw : Except PyErr PaymentResponse)
    (sendOk : Bool) (actFail : Bool) (now : Nat) (ts : String) :
    Option ChatAction × OrchState :=
  let message_text := strToLower msg.text
  if ctxFail then (none, st)
  else
    let found := st.convs.find? fun c => c.conversation_id == conversation_id
    let context := found.getD
      { conversation_id := conversation_id, customer_phone := msg.sender,
        last_activity := now }
    let st₀ := if found.isSome then st else { st with convs := st.convs ++ [context] }
    if is_payment_intent message_text then
      handle_payment_intent st₀ context gw sendOk now ts
    else if is_cart_action message_text then
      handle_cart_action st₀ context message_text now
    else if is_product_inquiry message_text then
      (some (.text productInquiryReply), st₀)
    else if actFail then (none, st₀)
    else (none, update_last_activity st₀ conversation_id now)

/-- The failure reason recorded for a conversation by the failure branch
(the `failure_reason` entry `_handle_payment_failure` passes to
`update_conversation_state`). -/
def recordedFailureReason (st : OrchState) (cid : String) : Option String :=
  (st.convs.find? fun c => c.conversation_id == cid).bind
    fun c => c.metadata.lookup "failure_reason"

/-! Section: Store lemmas -/

/-- The flow written by the classification and bookkeeping step of
`process_payment_status_update` for a found flow. -/
def updatedFlow (f : PaymentFlow) (ss : String) (pd : PaymentData) (now : Nat)
    (ps : PaymentStatus) : PaymentFlow :=
  { f with payment_status := some ss, payment_data := some pd,
           updated_at := some now, status := classifyStatus ps f.status }

theorem flows_update_conversation_state (st : OrchState) (cid s : String)
    (extra : List (String × String)) (now : Nat) :
    (update_conversation_state st cid s extra now).flows = st.flows := rfl

theorem flows_managerClearCart (st : OrchState) (cid : String) (now : Nat) :
    (managerClearCart st cid now).flows = st.flows := rfl

theorem convs_storeUpdateFlow (st : OrchState) (f : PaymentFlow) :
    (storeUpdateFlow st f).convs = st.convs := rfl

/-- Replacing, in a keyed record list, every record whose key equals `key`
moves the first match of the key predicate to the rewritten record, provided
the rewrite preserves the key on matching records. -/
theorem find?_key_map {α : Type} (k : α → String) (F : α → α) (key : String)
    (l : List α) (a : α)
    (hfind : l.find? (fun g => k g == key) = some a)
    (hF : ∀ g, k g = key → k (F g) = key) :
    (l.map fun g => if k g == key then F g else g).find?
      (fun g => k g == key) = some (F a) := by
  induction l with
  | nil => simp at hfind
  | cons h t ih =>
    by_cases hp : (k h == key) = true
    · have h1 : (h :: t).find? (fun g => k g == key) = some h :=
        List.find?_cons_of_pos t hp
      rw [h1] at hfind
      injection hfind with hha
      subst hha
      have hkey : k h = key := by simpa using hp
      have h2 : List.map (fun g => if (k g == key) = true then F g else g) (h :: t)
          = F h :: List.map (fun g => if (k g == key) = true then F g else g) t := by
        rw [List.map_cons, if_pos hp]
      rw [h2]
      exact List.find?_cons_of_pos _
        (by rw [show k (F h) = key from hF h hkey]; exact beq_self_eq_true key)
    · have hneg : ¬ ((fun g => k g == key) h) = true := by simpa using hp
      rw [List.find?_cons_of_neg t hneg] at hfind
      have h2 : List.map (fun g => if (k g == key) = true then F g else g) (h :: t)
          = h :: List.map (fun g => if (k g == key) = true then F g else g) t := by
        rw [List.map_cons, if_neg hp]
      rw [h2]
      have h3 : List.find? (fun g => k g == key)
          (h :: List.map (fun g => if (k g == key) = true then F g else g) t)
          = List.find? (fun g => k g == key)
            (List.map (fun g => if (k g == key) = true then F g else g) t) :=
        List.find?_cons_of_neg _ hneg
      rw [h3]
      exact ih hfind

/-- Replacing, in a record list with distinct keys, every record whose key
equals the key of the first match of an arbitrary predicate `p` moves that
first match of `p` to the rewritten record, provided the rewritten record
still satisfies `p`. -/
theorem find?_replace {α : Type} (k : α → String) (F : α → α) (p : α → Bool)
    (l : List α) (a : α)
    (hfind : l.find? p = some a)
    (hpa : p (F a) = true)
    (nd : (l.map k).Nodup) :
    (l.map fun g => if k g == k a then F g else g).find? p = some (F a) := by
  induction l with
  | nil => simp at hfind
  | cons h t ih =>
    simp only [List.map_cons, List.nodup_cons] at nd
    obtain ⟨hnd1, hnd2⟩ := nd
    by_cases hp : p h = true
    · rw [List.find?_cons_of_pos t hp] at hfind
      injection hfind with hha
      subst hha
      have h2 : List.map (fun g => if (k g == k h) = true then F g else g) (h :: t)
          = F h :: List.map (fun g => if (k g == k h) = true then F g else g) t := by
        rw [List.map_cons, if_pos (beq_self_eq_true (k h))]
      rw [h2]
      exact List.find?_cons_of_pos _ hpa
    · rw [List.find?_cons_of_neg t (by simpa using hp)] at hfind
      have hamem : a ∈ t := List.mem_of_find?_eq_some hfind
      have hka : k h ≠ k a := fun he => hnd1 (he ▸ List.mem_map_of_mem k hamem)
      have h2 : List.map (fun g => if (k g == k a) = true then F g else g) (h :: t)
          = h :: List.map (fun g => if (k g == k a) = true then F g else g) t := by
        rw [List.map_cons, if_neg (by simpa using hka)]
      rw [h2]
      rw [List.find?_cons_of_neg _ (by simpa using hp)]
      exact ih hfind hnd2

/-- A key-preserving keyed replacement leaves the key column of the list
unchanged. -/
theorem map_keys_replace {α : Type} (k : α → String) (F : α → α) (key : String)
    (l : List α) (hF : ∀ g, k g = key → k (F g) = k g) :
    (l.map fun g => if k g == key then F g else g).map k = l.map k := by
  rw [List.map_map]
  apply List.map_congr_left
  intro g _
  show k (if (k g == key) = true then F g else g) = k g
  by_cases hk : k g = key
  · rw [if_pos (by simpa using hk)]
    exact hF g hk
  · rw [if_neg (by simpa using hk)]

/-- Filtering for digits is idempotent. -/
theorem filter_digits_idem (l : List Char) :
    (l.filter Char.isDigit).filter Char.isDigit = l.filter Char.isDigit :=
  List.filter_eq_self.mpr fun _ ha => List.of_mem_filter ha

/-- A Python `sum` left fold over mapped values is the sum of the mapped
list. -/
theorem foldl_add_eq_sum (f : Item → ℚ) (l : List Item) (a : ℚ) :
    l.foldl (fun acc it => acc + f it) a = a + (l.map f).sum := by
  induction l generalizing a with
  | nil => simp
  | cons h t ih => simp [List.foldl_cons, ih, add_assoc]

/-- Core behaviour of `process_payment_status_update` for a known payment id
and a parseable status string: it reports success and persists the updated
flow, leaving the key column of the Payment Flow Store unchanged. -/
theorem process_known (st : OrchState) (pid ss : String) (pd : PaymentData)
    (b : Bool) (now : Nat) (f : PaymentFlow) (ps : PaymentStatus)
    (hf : get_by_payment_id st pid = some f)
    (hps : PaymentStatus.ofString ss = some ps)
    (nd : (st.flows.map PaymentFlow.flow_id).Nodup) :
    (process_payment_status_update st pid ss pd b now).1 = true ∧
    get_by_payment_id (process_payment_status_update st pid ss pd b now).2 pid =
      some (updatedFlow f ss pd now ps) ∧
    ((process_payment_status_update st pid ss pd b now).2.flows.map PaymentFlow.flow_id)
      = st.flows.map PaymentFlow.flow_id := by
  have hf' : st.flows.find? (fun g => g.payment_id == some pid) = some f := hf
  have hfp : (f.payment_id == some pid) = true :=
    List.find?_some (p := fun g : PaymentFlow => g.payment_id == some pid) hf'
  suffices h : ∃ st', st'.flows = st.flows ∧
      process_payment_status_update st pid ss pd b now =
        (true, storeUpdateFlow st' (updatedFlow f ss pd now ps)) by
    obtain ⟨st', hfl, heq⟩ := h
    rw [heq]
    refine ⟨rfl, ?_, ?_⟩
    · show ((storeUpdateFlow st' (updatedFlow f ss pd now ps)).flows.find?
        fun g => g.payment_id == some pid) = some (updatedFlow f ss pd now ps)
      show ((st'.flows.map fun g =>
          if g.flow_id == (updatedFlow f ss pd now ps).flow_id
          then updatedFlow f ss pd now ps else g).find?
        fun g => g.payment_id == some pid) = some (updatedFlow f ss pd now ps)
      rw [hfl]
      exact find?_replace PaymentFlow.flow_id (fun _ => updatedFlow f ss pd now ps)
        (fun g => g.payment_id == some pid) st.flows f hf' hfp nd
    · show ((st'.flows.map fun g =>
          if g.flow_id == (updatedFlow f ss pd now ps).flow_id
          then updatedFlow f ss pd now ps else g).map PaymentFlow.flow_id)
        = st.flows.map PaymentFlow.flow_id
      rw [hfl]
      exact map_keys_replace PaymentFlow.flow_id (fun _ => updatedFlow f ss pd now ps)
        f.flow_id st.flows (fun g hg => hg.symm)
  by_cases h1 : is_payment_successful ps = true
  · refine ⟨handle_payment_success st
      { f with payment_status := some ss, payment_data := some pd,
               updated_at := some now, status := PaymentFlowStatus.payment_approved }
      b now, rfl, ?_⟩
    have hfe : updatedFlow f ss pd now ps =
        { f with payment_status := some ss, payment_data := some pd,
                 updated_at := some now, status := PaymentFlowStatus.payment_approved } := by
      unfold updatedFlow classifyStatus
      rw [if_pos h1]
    simp [process_payment_status_update, hf, hps, h1, hfe]
  · by_cases h2 : is_payment_failed ps = true
    · refine ⟨handle_payment_failure st
        { f with payment_status := some ss, payment_data := some pd,
                 updated_at := some now, status := PaymentFlowStatus.payment_failed }
        pd b now, rfl, ?_⟩
      have hfe : updatedFlow f ss pd now ps =
          { f with payment_status := some ss, payment_data := some pd,
                   updated_at := some now, status := PaymentFlowStatus.payment_failed } := by
        unfold updatedFlow classifyStatus
        rw [if_neg h1, if_pos h2]
      simp [process_payment_status_update, hf, hps, h1, h2, hfe]
    · by_cases h3 : is_payment_pending ps = true
      · refine ⟨handle_payment_pending st
          { f with payment_status := some ss, payment_data := some pd,
                   updated_at := some now, status := PaymentFlowStatus.payment_pending }
          now, rfl, ?_⟩
        have hfe : updatedFlow f ss pd now ps =
            { f with payment_status := some ss, payment_data := some pd,
                     updated_at := some now, status := PaymentFlowStatus.payment_pending } := by
          unfold updatedFlow classifyStatus
          rw [if_neg h1, if_neg h2, if_pos h3]
        simp [process_payment_status_update, hf, hps, h1, h2, h3, hfe]
      · refine ⟨st, rfl, ?_⟩
        have hfe : updatedFlow f ss pd now ps =
            { f with payment_status := some ss, payment_data := some pd,
                     updated_at := some now } := by
          unfold updatedFlow classifyStatus
          rw [if_neg h1, if_neg h2, if_neg h3]
        simp [process_payment_status_update, hf, hps, h1, h2, h3, hfe]

/-! Section: Concrete fixtures -/

/-- A valid sample cart item. -/
def itemCamisa : Item :=
  { id := "sku1", title := "Camisa", quantity := 2, unit_price := 50000 }

/-- A sample gateway preference response. -/
def respSample : PaymentResponse :=
  { id := "pref_1", checkout_url := "https://checkout.example/pref_1",
    transaction_id := "tx_1", expires_at := 3600 }

/-- The empty store pair. -/
def stEmpty : OrchState := ⟨[], []⟩

/-- A sample stored flow awaiting payment, carrying payment id `pay_1`. -/
def flowSample : PaymentFlow :=
  { flow_id := "flow_1", conversation_id := "conv_1",
    customer_phone := "+573001234567", items := [itemCamisa],
    payment_id := some "pay_1", status := .link_sent, created_at := 0 }

/-- A sample conversation context with a non-empty cart. -/
def convWithCart : ConversationContext :=
  { conversation_id := "conv_1", customer_phone := "+573001234567",
    cart_items := [itemCamisa] }

/-- A store holding `flowSample` and its conversation. -/
def stOneFlow : OrchState := ⟨[flowSample], [convWithCart]⟩

/-! Section: C2 -/

/-- C2: for a `payment_id` with no stored flow, `process_payment_status_update`
returns `true` and leaves both stores untouched. -/
theorem unknown_payment_id_update_noop (st : OrchState) (pid ss : String)
    (pd : PaymentData) (b : Bool) (now : Nat)
    (h : get_by_payment_id st pid = none) :
    process_payment_status_update st pid ss pd b now = (true, st) := by
  unfold process_payment_status_update
  rw [h]

/-- C2 witness at a concrete unknown payment id. -/
theorem unknown_payment_id_update_noop_witness :
    process_payment_status_update stOneFlow "pay_404" "approved" {} true 3 =
      (true, stOneFlow) :=
  unknown_payment_id_update_noop stOneFlow "pay_404" "approved" {} true 3 (by decide)

/-! Section: C3 -/

/-- C3: for a known `payment_id`, the operation reports failure only when an
exception (an unparseable status raising `ValueError`) escapes to the outer
handler; for every parseable status it returns `true` whatever the messaging
outcome `b`, the resulting stores do not depend on the messaging outcome, and
the updated flow (`payment_status`, `payment_data`, `updated_at`, new status)
is persisted. -/
theorem status_update_result_spec (st : OrchState) (pid : String) (pd : PaymentData)
    (now : Nat) (f : PaymentFlow)
    (hf : get_by_payment_id st pid = some f)
    (nd : (st.flows.map PaymentFlow.flow_id).Nodup) :
    ∀ ss : String, ∀ b : Bool,
      (PaymentStatus.ofString ss = none →
        process_payment_status_update st pid ss pd b now = (false, st)) ∧
      ∀ ps : PaymentStatus, PaymentStatus.ofString ss = some ps →
        (process_payment_status_update st pid ss pd b now).1 = true ∧
        (process_payment_status_update st pid ss pd b now).2 =
          (process_payment_status_update st pid ss pd false now).2 ∧
        get_by_payment_id (process_payment_status_update st pid ss pd b now).2 pid =
          some (updatedFlow f ss pd now ps) := by
  intro ss b
  constructor
  · intro hnone
    unfold process_payment_status_update
    rw [hf, hnone]
  · intro ps hps
    obtain ⟨h1, h2, _⟩ := process_known st pid ss pd b now f ps hf hps nd
    exact ⟨h1, rfl, h2⟩

/-- C3 witness: a rejected webhook for the sample flow, with a failed
messaging outcome. -/
theorem status_update_result_spec_witness :
    (process_payment_status_update stOneFlow "pay_1" "rejected"
        { status_detail := "cc_rejected_high_risk" } false 5).1 = true ∧
    get_by_payment_id (process_payment_status_update stOneFlow "pay_1" "rejected"
        { status_detail := "cc_rejected_high_risk" } false 5).2 "pay_1" =
      some (updatedFlow flowSample "rejected"
        { status_detail := "cc_rejected_high_risk" } 5 .rejected) := by
  have h := (status_update_result_spec stOneFlow "pay_1"
    { status_detail := "cc_rejected_high_risk" } 5 flowSample (by decide) (by decide)
    "rejected" false).2 .rejected (by decide)
  exact ⟨h.1, h.2.2⟩

/-! Section: C1 -/

/-- C1: two consecutive `approved` updates for the same known payment id both
return `true`, and after either call the stored flow is in status
`payment_approved` (or `completed`); the second call raises no error. -/
theorem duplicate_approved_update_idempotent (st : OrchState) (pid : String)
    (pd₁ pd₂ : PaymentData) (b₁ b₂ : Bool) (n₁ n₂ : Nat) (f : PaymentFlow)
    (hf : get_by_payment_id st pid = some f)
    (nd : (st.flows.map PaymentFlow.flow_id).Nodup) :
    (process_payment_status_update st pid "approved" pd₁ b₁ n₁).1 = true ∧
    (∃ f₁, get_by_payment_id
        (process_payment_status_update st pid "approved" pd₁ b₁ n₁).2 pid = some f₁ ∧
      (f₁.status = .payment_approved ∨ f₁.status = .completed)) ∧
    (process_payment_status_update
        (process_payment_status_update st pid "approved" pd₁ b₁ n₁).2
        pid "approved" pd₂ b₂ n₂).1 = true ∧
    ∃ f₂, get_by_payment_id
        (process_payment_status_update
          (process_payment_status_update st pid "approved" pd₁ b₁ n₁).2
          pid "approved" pd₂ b₂ n₂).2 pid = some f₂ ∧
      (f₂.status = .payment_approved ∨ f₂.status = .completed) := by
  have happ : PaymentStatus.ofString "approved" = some .approved := by decide
  obtain ⟨h1, h2, h3⟩ := process_known st pid "approved" pd₁ b₁ n₁ f .approved hf happ nd
  have hstat : (updatedFlow f "approved" pd₁ n₁ .approved).status = .payment_approved := by
    unfold updatedFlow classifyStatus is_payment_successful
    simp
  have nd₂ : (((process_payment_status_update st pid "approved" pd₁ b₁ n₁).2).flows.map
      PaymentFlow.flow_id).Nodup := by rw [h3]; exact nd
  obtain ⟨h4, h5, _⟩ := process_known
    (process_payment_status_update st pid "approved" pd₁ b₁ n₁).2 pid "approved"
    pd₂ b₂ n₂ (updatedFlow f "approved" pd₁ n₁ .approved) .approved h2 happ nd₂
  have hstat₂ : (updatedFlow (updatedFlow f "approved" pd₁ n₁ .approved)
      "approved" pd₂ n₂ .approved).status = .payment_approved := by
    unfold updatedFlow classifyStatus is_payment_successful
    simp
  exact ⟨h1, ⟨_, h2, Or.inl hstat⟩, h4, ⟨_, h5, Or.inl hstat₂⟩⟩

/-- C1 witness: duplicate approved webhooks on the sample store. -/
theorem duplicate_approved_update_idempotent_witness :
    (process_payment_status_update stOneFlow "pay_1" "approved" {} true 5).1 = true ∧
    (∃ f₁, get_by_payment_id
        (process_payment_status_update stOneFlow "pay_1" "approved" {} true 5).2
        "pay_1" = some f₁ ∧
      (f₁.status = .payment_approved ∨ f₁.status = .completed)) ∧
    (process_payment_status_update
        (process_payment_status_update stOneFlow "pay_1" "approved" {} true 5).2
        "pay_1" "approved" {} true 9).1 = true ∧
    ∃ f₂, get_by_payment_id
        (process_payment_status_update
          (process_payment_status_update stOneFlow "pay_1" "approved" {} true 5).2
          "pay_1" "approved" {} true 9).2 "pay_1" = some f₂ ∧
      (f₂.status = .payment_approved ∨ f₂.status = .completed) :=
  duplicate_approved_update_idempotent stOneFlow "pay_1" {} {} true true 5 9
    flowSample (by decide) (by decide)

/-! Section: C4 -/

/-- C4: `cancel_payment_flow` on a stored non-terminal flow ignores the
gateway outcome, reports success, persists the flow as `cancelled` with the
reason and cancellation timestamp in its metadata, and resets the
conversation to `browsing`; it returns `false` when the flow is missing. -/
theorem cancel_flow_spec (st : OrchState) (fid reason : String) (g : Bool) (now : Nat) :
    (getFlow st fid = none → cancel_payment_flow st fid reason g now = (false, st)) ∧
    ∀ f c, getFlow st fid = some f → f.is_active = true →
      st.convs.find? (fun x => x.conversation_id == f.conversation_id) = some c →
      cancel_payment_flow st fid reason g now = cancel_payment_flow st fid reason false now ∧
      (cancel_payment_flow st fid reason g now).1 = true ∧
      (∃ f', getFlow (cancel_payment_flow st fid reason g now).2 fid = some f' ∧
        f'.status = .cancelled ∧ f'.metadata.cancellation_reason = some reason ∧
        f'.metadata.cancelled_at = some now) ∧
      ∃ c', ((cancel_payment_flow st fid reason g now).2.convs.find?
          fun x => x.conversation_id == f.conversation_id) = some c' ∧
        c'.current_state = "browsing" := by
  constructor
  · intro hn
    unfold cancel_payment_flow
    rw [hn]
  · intro f c hf _hactive hc
    have hf' : st.flows.find? (fun x => x.flow_id == fid) = some f := hf
    have hfid : (f.flow_id == fid) = true :=
      List.find?_some (p := fun x : PaymentFlow => x.flow_id == fid) hf'
    have hfideq : f.flow_id = fid := by simpa using hfid
    have hcancel : cancel_payment_flow st fid reason g now =
        (true, update_conversation_state (storeUpdateFlow st
            { f with status := PaymentFlowStatus.cancelled,
                     metadata := { f.metadata with
                       cancellation_reason := some reason,
                       cancelled_at := some now } })
          f.conversation_id "browsing" [("cancelled_flow_id", fid)] now) := by
      unfold cancel_payment_flow
      rw [hf]
    refine ⟨rfl, ?_, ?_, ?_⟩
    · rw [hcancel]
    · refine ⟨({ f with
        status := PaymentFlowStatus.cancelled,
        metadata := { f.metadata with
          cancellation_reason := some reason,
          cancelled_at := some now } } : PaymentFlow), ?_, rfl, rfl, rfl⟩
      rw [hcancel]
      have hf2 : st.flows.find? (fun x => x.flow_id == f.flow_id) = some f := by
        rw [hfideq]
        exact hf'
      have hrepl := find?_key_map PaymentFlow.flow_id
        (fun _ => ({ f with
          status := PaymentFlowStatus.cancelled,
          metadata := { f.metadata with
            cancellation_reason := some reason,
            cancelled_at := some now } } : PaymentFlow))
        f.flow_id st.flows f hf2 (fun _ _ => rfl)
      rw [← hfideq]
      exact hrepl
    · rw [hcancel]
      refine ⟨({ (c.set_state "browsing" now) with
          metadata := [("cancelled_flow_id", fid)] ++ c.metadata } : ConversationContext), ?_, rfl⟩
      show ((st.convs.map fun x =>
          if x.conversation_id == f.conversation_id then
            { (x.set_state "browsing" now) with
              metadata := [("cancelled_flow_id", fid)] ++ x.metadata }
          else x).find? fun x => x.conversation_id == f.conversation_id) = _
      exact find?_key_map ConversationContext.conversation_id
        (fun x => { (x.set_state "browsing" now) with
          metadata := [("cancelled_flow_id", fid)] ++ x.metadata })
        f.conversation_id st.convs c hc (fun _ hx => hx)

/-- C4 witness: cancelling the sample flow with a failed gateway outcome. -/
theorem cancel_flow_spec_witness :
    (cancel_payment_flow stOneFlow "flow_1" "user_cancellation" false 11).1 = true ∧
    (∃ f', getFlow (cancel_payment_flow stOneFlow "flow_1" "user_cancellation"
        false 11).2 "flow_1" = some f' ∧
      f'.status = .cancelled ∧
      f'.metadata.cancellation_reason = some "user_cancellation" ∧
      f'.metadata.cancelled_at = some 11) ∧
    ∃ c', ((cancel_payment_flow stOneFlow "flow_1" "user_cancellation"
        false 11).2.convs.find?
        fun x => x.conversation_id == flowSample.conversation_id) = some c' ∧
      c'.current_state = "browsing" := by
  have h := (cancel_flow_spec stOneFlow "flow_1" "user_cancellation" false 11).2
    flowSample convWithCart (by decide) (by decide) (by decide)
  exact ⟨h.2.1, h.2.2.1, h.2.2.2⟩

/-! Section: C8 -/

/-- C8 counterexample: a `cancelled` webhook with an empty detail code makes
the failed branch record the generic *rejected* message, not the generic
failure message for the status that arrived (`cancelled`), refuting the claim
that unknown detail codes fall back to the generic message for that status. -/
theorem failure_reason_status_counterexample :
    recordedFailureReason
        (process_payment_status_update stOneFlow "pay_1" "cancelled" {} true 7).2
        "conv_1" = some (statusMessageBase .rejected) ∧
    statusMessageBase .rejected ≠ get_payment_status_message .cancelled "" := by
  decide

/-- C8 as amended: on the failed branch the reason is computed by
`get_payment_status_message` with the status hard-wired to `rejected` and the
detail code of the webhook — a deterministic lookup on the detail code alone — and
a detail code outside the table falls back to the generic rejected-payment
message whichever failed status arrived. -/
theorem failure_reason_amended (st : OrchState) (pid ss : String) (pd : PaymentData)
    (b : Bool) (now : Nat) (f : PaymentFlow) (c : ConversationContext)
    (ps : PaymentStatus)
    (hf : get_by_payment_id st pid = some f)
    (hps : PaymentStatus.ofString ss = some ps)
    (hfail : is_payment_failed ps = true)
    (hc : st.convs.find? (fun x => x.conversation_id == f.conversation_id) = some c) :
    recordedFailureReason (process_payment_status_update st pid ss pd b now).2
        f.conversation_id =
      some (get_payment_status_message .rejected pd.status_detail) ∧
    (rejectionDetailMessages.lookup pd.status_detail = none →
      get_payment_status_message .rejected pd.status_detail =
        statusMessageBase .rejected) := by
  constructor
  · have hps2 : ps = .rejected ∨ ps = .cancelled := by
      cases ps <;> first
        | exact Or.inl rfl
        | exact Or.inr rfl
        | exact absurd hfail (by decide)
    have hproc : (process_payment_status_update st pid ss pd b now).2 =
        storeUpdateFlow (handle_payment_failure st
          ({ f with payment_status := some ss, payment_data := some pd,
                    updated_at := some now,
                    status := PaymentFlowStatus.payment_failed }) pd b now)
          ({ f with payment_status := some ss, payment_data := some pd,
                    updated_at := some now,
                    status := PaymentFlowStatus.payment_failed }) := by
      obtain hps2 | hps2 := hps2 <;> subst hps2 <;>
        simp [process_payment_status_update, hf, hps, is_payment_successful,
          is_payment_failed, is_payment_pending]
    have hfind := find?_key_map ConversationContext.conversation_id
      (fun x => { (x.set_state "payment_failed" now) with
        metadata := [("failed_flow_id", f.flow_id),
          ("failure_reason", get_payment_status_message .rejected pd.status_detail)]
          ++ x.metadata })
      f.conversation_id st.convs c hc (fun _ hx => hx)
    rw [hproc]
    show ((st.convs.map fun x =>
        if x.conversation_id == f.conversation_id then
          { (x.set_state "payment_failed" now) with
            metadata := [("failed_flow_id", f.flow_id),
              ("failure_reason", get_payment_status_message .rejected pd.status_detail)]
              ++ x.metadata }
        else x).find? fun x => x.conversation_id == f.conversation_id).bind
      (fun g => g.metadata.lookup "failure_reason") =
      some (get_payment_status_message .rejected pd.status_detail)
    rw [hfind]
    show ([("failed_flow_id", f.flow_id),
        ("failure_reason", get_payment_status_message .rejected pd.status_detail)]
        ++ c.metadata).lookup "failure_reason" =
      some (get_payment_status_message .rejected pd.status_detail)
    simp [List.lookup]
  · intro hnone
    by_cases hd : pd.status_detail = ""
    · unfold get_payment_status_message
      rw [if_neg]
      intro hcon
      exact hcon.2 hd
    · unfold get_payment_status_message
      rw [if_pos ⟨rfl, hd⟩, hnone]

/-- C8 witness: a rejected webhook whose detail code is outside the table. -/
theorem failure_reason_amended_witness :
    recordedFailureReason
        (process_payment_status_update stOneFlow "pay_1" "rejected"
          { status_detail := "unknown_code_xyz" } true 7).2 "conv_1" =
      some (get_payment_status_message .rejected "unknown_code_xyz") ∧
    get_payment_status_message .rejected "unknown_code_xyz" =
      statusMessageBase .rejected := by
  have h := failure_reason_amended stOneFlow "pay_1" "rejected"
    { status_detail := "unknown_code_xyz" } true 7 flowSample convWithCart .rejected
    (by decide) (by decide) (by decide) (by decide)
  exact ⟨h.1, h.2 (by decide)⟩

/-! Section: C9 -/

/-- C9: for items with `quantity ≥ 1` and `unit_price > 0`, the flow field
`total_amount` is exactly the sum over items of `quantity × unit_price`, and
any permutation of the item list yields the same total. -/
theorem total_amount_sum_perm (f : PaymentFlow)
    (_h : ∀ it ∈ f.items, 1 ≤ it.quantity ∧ 0 < it.unit_price) :
    f.total_amount = (f.items.map fun it => it.unit_price * (it.quantity : ℚ)).sum ∧
    ∀ items₂ : List Item, f.items.Perm items₂ → f.total_amount = totalAmount items₂ := by
  constructor
  · unfold PaymentFlow.total_amount totalAmount
    rw [foldl_add_eq_sum (fun it => it.unit_price * (it.quantity : ℚ)), zero_add]
  · intro its₂ hperm
    unfold PaymentFlow.total_amount totalAmount
    rw [foldl_add_eq_sum (fun it => it.unit_price * (it.quantity : ℚ)),
      foldl_add_eq_sum (fun it => it.unit_price * (it.quantity : ℚ)),
      List.Perm.sum_eq (hperm.map _)]

/-- C9 witness at the sample flow. -/
theorem total_amount_sum_perm_witness :
    flowSample.total_amount =
      ([itemCamisa].map fun it => it.unit_price * (it.quantity : ℚ)).sum ∧
    flowSample.total_amount = totalAmount [itemCamisa] :=
  ⟨(total_amount_sum_perm flowSample (by decide)).1,
   (total_amount_sum_perm flowSample (by decide)).2 [itemCamisa] (List.Perm.refl _)⟩

/-! Section: C7 -/

/-- C7: `Customer.validate_phone` sends the bare 10-digit number and the
`+57`-prefixed number to the same canonical representation, rejects an
8-digit number, and every canonical output it produces is accepted by the
`PaymentFlow` phone validator. -/
theorem phone_normalization_spec :
    Customer.validate_phone "3001234567" = some "+573001234567" ∧
    Customer.validate_phone "+573001234567" = some "+573001234567" ∧
    Customer.validate_phone "30012345" = none ∧
    ∀ v c, Customer.validate_phone v = some c →
      (PaymentFlow.validate_phone c).isSome = true := by
  refine ⟨by decide, by decide, by decide, ?_⟩
  intro v c hvc
  unfold Customer.validate_phone at hvc
  by_cases h1 : startsWith57 (cleanDigits v) ∧ (cleanDigits v).data.length = 12
  · rw [if_pos h1] at hvc
    injection hvc with hc
    subst hc
    have hclean : cleanDigits (⟨'+' :: (cleanDigits v).data⟩ : String) = cleanDigits v := by
      unfold cleanDigits
      apply congrArg String.mk
      show List.filter Char.isDigit ('+' :: List.filter Char.isDigit v.data)
        = List.filter Char.isDigit v.data
      rw [List.filter_cons]
      simp [filter_digits_idem]
    unfold PaymentFlow.validate_phone
    rw [hclean, if_pos h1]
    rfl
  · rw [if_neg h1] at hvc
    by_cases h2 : (cleanDigits v).data.length = 10
    · rw [if_pos h2] at hvc
      injection hvc with hc
      subst hc
      have hclean : cleanDigits (⟨'+' :: '5' :: '7' :: (cleanDigits v).data⟩ : String)
          = ⟨'5' :: '7' :: (cleanDigits v).data⟩ := by
        unfold cleanDigits
        apply congrArg String.mk
        show List.filter Char.isDigit ('+' :: '5' :: '7' :: List.filter Char.isDigit v.data)
          = '5' :: '7' :: List.filter Char.isDigit v.data
        rw [List.filter_cons, List.filter_cons, List.filter_cons]
        simp [filter_digits_idem]
      unfold PaymentFlow.validate_phone
      rw [hclean]
      rw [if_pos ⟨rfl, by simp [h2]⟩]
      rfl
    · rw [if_neg h2] at hvc
      exact absurd hvc (by simp)

/-- C7 witness: the canonical output is accepted as a flow phone. -/
theorem phone_normalization_spec_witness :
    (PaymentFlow.validate_phone "+573001234567").isSome = true :=
  phone_normalization_spec.2.2.2 "3001234567" "+573001234567" (by decide)

/-- Decidable equality for `Except` outcomes (not derived by core). -/
instance {α β : Type} [DecidableEq α] [DecidableEq β] : DecidableEq (Except α β) :=
  fun a b =>
    match a, b with
    | .ok x, .ok y =>
      if h : x = y then isTrue (by rw [h]) else isFalse (fun hc => h (Except.ok.inj hc))
    | .error x, .error y =>
      if h : x = y then isTrue (by rw [h]) else isFalse (fun hc => h (Except.error.inj hc))
    | .ok _, .error _ => isFalse (fun hc => Except.noConfusion hc)
    | .error _, .ok _ => isFalse (fun hc => Except.noConfusion hc)

/-- Embeds `round(Decimal("50000"), 2)` evaluates to itself. -/
theorem round2_50000 : round2 50000 = 50000 := by
  unfold round2 roundHalfEven
  rw [show ((50000 : ℚ) * 100) = ((5000000 : ℕ) : ℚ) by norm_num, Int.floor_natCast]
  norm_num

/-- The sample item after `PaymentItem` validation (its price re-rounded). -/
def itemCamisaR : Item := { itemCamisa with unit_price := 50000 }

/-- The validated sample payment request. -/
def reqCamisa : PaymentRequest :=
  { items := [itemCamisaR], customer := { phone := "+573001234567" },
    conversation_id := "conv_1" }

/-- Embeds `PaymentItem` validation of the sample item. -/
theorem mkPaymentItemCamisa :
    mkPaymentItem itemCamisa = some itemCamisaR := by
  have hcond : itemCamisa.title.length ≤ 256 ∧
      (itemCamisa.description.all fun d => decide (d.length ≤ 600)) = true ∧
      1 ≤ itemCamisa.quantity ∧ itemCamisa.quantity ≤ 100 ∧
      0 < itemCamisa.unit_price :=
    ⟨by decide, rfl, by decide, by decide, by decide⟩
  unfold mkPaymentItem
  rw [if_pos hcond]
  rw [show round2 itemCamisa.unit_price = 50000 from round2_50000]
  rfl

/-- The item total of the validated sample request. -/
theorem requestTotalCamisa2 : requestTotal [itemCamisaR] = 100000 := by
  unfold requestTotal
  show (0 : ℚ) + 50000 * ((2 : ℕ) : ℚ) = 100000
  norm_num

/-- Embeds `_build_payment_request` evaluation at the sample inputs. -/
theorem mkPaymentRequestCamisa :
    mkPaymentRequest "conv_1" "+573001234567" [itemCamisa] {} = some reqCamisa := by
  have hmap : [itemCamisa].mapM mkPaymentItem = some [itemCamisaR] := by
    rw [show ([itemCamisa].mapM mkPaymentItem) =
        (mkPaymentItem itemCamisa).bind (fun b => some [b]) from rfl]
    rw [mkPaymentItemCamisa]
    rfl
  have hcond : 1 ≤ [itemCamisaR].length ∧ [itemCamisaR].length ≤ 50 ∧
      "conv_1".length ≤ 128 ∧ 0 < requestTotal [itemCamisaR] ∧
      requestTotal [itemCamisaR] ≤ 999999999 :=
    ⟨by decide, by decide, by decide,
     by rw [requestTotalCamisa2]; norm_num, by rw [requestTotalCamisa2]; norm_num⟩
  unfold mkPaymentRequest
  rw [hmap]
  rw [show mkCustomer "+573001234567" ({} : CustomerInfo) =
      some { phone := "+573001234567" } from by decide]
  show (if 1 ≤ [itemCamisaR].length ∧ [itemCamisaR].length ≤ 50 ∧
      "conv_1".length ≤ 128 ∧ 0 < requestTotal [itemCamisaR] ∧
      requestTotal [itemCamisaR] ≤ 999999999 then
    some { items := [itemCamisaR], customer := { phone := "+573001234567" },
           conversation_id := "conv_1" } else none) = some reqCamisa
  rw [if_pos hcond]
  rfl

/-- Embeds `initiate_payment_flow` at the sample inputs with a raising gateway:
the `PaymentError` is re-raised unchanged. -/
theorem initiateCamisaErr (st : OrchState) (code : String) (sendOk : Bool)
    (now : Nat) (ts : String) :
    (initiate_payment_flow st "conv_1" "+573001234567" [itemCamisa] {}
        (.error (.paymentError code)) sendOk now ts).1 =
      .error (.paymentError code) := by
  unfold initiate_payment_flow
  rw [show PaymentFlow.validate_phone "+573001234567" = some "+573001234567" from by decide]
  rw [mkPaymentRequestCamisa]
  rfl

/-- Embeds `initiate_payment_flow` at the sample inputs with succeeding adapters:
the returned flow carries the inline second-granular flow id. -/
theorem initiateCamisaOk (st : OrchState) (now : Nat) (ts : String) :
    (initiate_payment_flow st "conv_1" "+573001234567" [itemCamisa] {}
        (.ok respSample) true now ts).1.toOption.map PaymentFlow.flow_id =
      some (mkOrchFlowId ts "conv_1") := by
  unfold initiate_payment_flow
  rw [show PaymentFlow.validate_phone "+573001234567" = some "+573001234567" from by decide]
  rw [mkPaymentRequestCamisa]
  rfl

/-! Section: C5 -/

/-- C5 counterexample: with an empty items list (valid phone, adapters
succeeding), `initiate_payment_flow` surfaces a generic `IntegrationError`
wrapping the pydantic failure — not a `ValidationError` under either reading
of that name. -/
theorem empty_items_error_kind_counterexample :
    (initiate_payment_flow stEmpty "conv_1" "+573001234567" [] {}
        (.ok respSample) true 0 "20250101_120000").1 =
      Except.error (PyErr.integrationError "Failed to initiate payment flow") ∧
    isValidationErr (PyErr.integrationError "Failed to initiate payment flow") = false := by
  decide

/-- C5 as amended: an empty items list makes `initiate_payment_flow` fail
with an `IntegrationError` wrapping the validation failure; with one item
passing the payment-request validation (in particular `quantity ≥ 1` and
`unit_price > 0`), a phone accepted by the flow validator, and both adapter
calls succeeding, the returned flow has status `link_sent`. -/
theorem initiate_flow_link_sent_amended (st : OrchState) (conv phone : String)
    (it : Item) (info : CustomerInfo) (resp : PaymentResponse) (now : Nat) (ts : String)
    (hphone : (PaymentFlow.validate_phone phone).isSome = true)
    (hreq : (mkPaymentRequest conv phone [it] info).isSome = true) :
    ∃ f, (initiate_payment_flow st conv phone [it] info (.ok resp) true now ts).1 =
        .ok f ∧ f.status = .link_sent := by
  obtain ⟨p, hp⟩ := Option.isSome_iff_exists.mp hphone
  obtain ⟨req, hq⟩ := Option.isSome_iff_exists.mp hreq
  unfold initiate_payment_flow
  rw [hp, hq]
  exact ⟨_, rfl, rfl⟩

/-- C5 witness: one valid item on the empty store. -/
theorem initiate_flow_link_sent_amended_witness :
    ∃ f, (initiate_payment_flow stEmpty "conv_1" "+573001234567" [itemCamisa] {}
        (.ok respSample) true 0 "20250101_120000").1 = .ok f ∧
      f.status = .link_sent :=
  initiate_flow_link_sent_amended stEmpty "conv_1" "+573001234567" itemCamisa {}
    respSample 0 "20250101_120000" (by decide) (by rw [mkPaymentRequestCamisa]; rfl)

/-! Section: C6 -/

/-- Two invocation contexts in the same wall-clock second with distinct
uuid draws. -/
def invA : Invocation :=
  { ts := "20250101_120000", uuid := "a1b2c3d4-0000-4000-8000-000000000000" }

/-- A second, distinct invocation context in the same second. -/
def invB : Invocation :=
  { ts := "20250101_120000", uuid := "e5f6a7b8-1111-4111-9111-111111111111" }

/-- C6: `initiate_payment_flow` derives the flow id from the second-granular
timestamp and the conversation id alone — two distinct invocations in the
same second for the same conversation collide — while the unused repository
helper `create_payment_flow_id` embeds the random suffix that would
keep them distinct. -/
theorem flow_id_collision_bug :
    invA ≠ invB ∧
    orchFlowId invA "conv_1" = orchFlowId invB "conv_1" ∧
    create_payment_flow_id invA "conv_1" ≠ create_payment_flow_id invB "conv_1" ∧
    ((initiate_payment_flow stEmpty "conv_1" "+573001234567" [itemCamisa] {}
        (.ok respSample) true 0 invA.ts).1.toOption.map PaymentFlow.flow_id =
      some "flow_20250101_120000_conv_1") ∧
    ((initiate_payment_flow stEmpty "conv_1" "+573001234567" [itemCamisa] {}
        (.ok respSample) true 0 invB.ts).1.toOption.map PaymentFlow.flow_id =
      some "flow_20250101_120000_conv_1") := by
  refine ⟨by decide, by decide, by decide, ?_, ?_⟩
  · rw [initiateCamisaOk stEmpty 0 invA.ts]
    decide
  · rw [initiateCamisaOk stEmpty 0 invB.ts]
    decide

/-! Section: C10 -/

/-- A payment-intent message on a non-empty cart whose nested
`initiate_payment_flow` raises makes `handle_conversation_message` return the
generic apology response: the exception is caught by the payment-intent
handler, not the outer handler. -/
theorem handle_msg_flow_error (st : OrchState) (cid : String) (msg : MessageData)
    (gw : Except PyErr PaymentResponse) (sendOk : Bool) (now : Nat) (ts : String)
    (c : ConversationContext) (e : PyErr)
    (hcfind : st.convs.find? (fun x => x.conversation_id == cid) = some c)
    (hintent : is_payment_intent (strToLower msg.text) = true)
    (hcart : c.cart_items.isEmpty = false)
    (hinit : (initiate_payment_flow st c.conversation_id c.customer_phone
        c.cart_items c.customer_info gw sendOk now ts).1 = .error e) :
    (handle_conversation_message st cid msg false gw sendOk false now ts).1 =
      some (.text "Hubo un error al procesar tu pago. Por favor intenta de nuevo.") := by
  rcases hpair : initiate_payment_flow st c.conversation_id c.customer_phone
    c.cart_items c.customer_info gw sendOk now ts with ⟨r, st'⟩
  rw [hpair] at hinit
  simp only at hinit
  subst hinit
  simp [handle_conversation_message, handle_payment_intent, hcfind, hintent,
    hcart, hpair]

/-- C10 counterexample: a payment-intent message on a non-empty cart whose
nested `initiate_payment_flow` raises yields the generic apology response —
not null — refuting the claim that an exception in any internal step
(including flow initiation) leads to a null return. -/
theorem message_handler_null_counterexample :
    (handle_conversation_message stOneFlow "conv_1"
        { text := "pagar", sender := "+573001234567" } false
        (.error (.paymentError "PAYMENT_ERROR")) true false 0 "20250101_120000").1 =
      some (.text "Hubo un error al procesar tu pago. Por favor intenta de nuevo.") ∧
    some (ChatAction.text "Hubo un error al procesar tu pago. Por favor intenta de nuevo.")
      ≠ (none : Option ChatAction) := by
  refine ⟨?_, by decide⟩
  exact handle_msg_flow_error stOneFlow "conv_1"
    { text := "pagar", sender := "+573001234567" }
    (.error (.paymentError "PAYMENT_ERROR")) true 0 "20250101_120000"
    convWithCart (.paymentError "PAYMENT_ERROR") (by decide) (by decide) (by decide)
    (initiateCamisaErr stOneFlow "PAYMENT_ERROR" true 0 "20250101_120000")

/-- C10 as amended: `handle_conversation_message` never propagates an
exception; a context lookup/creation failure or an `update_last_activity`
failure yields null, while an exception inside the nested
`initiate_payment_flow` is caught by the payment-intent handler and yields
the generic apology response instead of null. -/
theorem message_handler_error_amended (st : OrchState) (cid : String)
    (msg : MessageData) (gw : Except PyErr PaymentResponse) (sendOk : Bool)
    (now : Nat) (ts : String) :
    (handle_conversation_message st cid msg true gw sendOk false now ts).1 = none ∧
    (is_payment_intent (strToLower msg.text) = false →
      is_cart_action (strToLower msg.text) = false →
      is_product_inquiry (strToLower msg.text) = false →
      (handle_conversation_message st cid msg false gw sendOk true now ts).1 = none) ∧
    ∀ c e, st.convs.find? (fun x => x.conversation_id == cid) = some c →
      is_payment_intent (strToLower msg.text) = true →
      c.cart_items.isEmpty = false →
      (initiate_payment_flow st c.conversation_id c.customer_phone c.cart_items
          c.customer_info gw sendOk now ts).1 = .error e →
      (handle_conversation_message st cid msg false gw sendOk false now ts).1 =
        some (.text "Hubo un error al procesar tu pago. Por favor intenta de nuevo.") := by
  refine ⟨rfl, ?_, ?_⟩
  · intro h1 h2 h3
    simp [handle_conversation_message, h1, h2, h3]
  · intro c e hcfind hintent hcart hinit
    exact handle_msg_flow_error st cid msg gw sendOk now ts c e hcfind hintent
      hcart hinit

/-- C10 witness: a no-keyword message with a failing activity update yields
null, and a payment-intent message with a failing gateway yields the
apology. -/
theorem message_handler_error_amended_witness :
    (handle_conversation_message stOneFlow "conv_1" { text := "hola", sender := "s" }
        false (.ok respSample) true true 0 "ts").1 = none ∧
    (handle_conversation_message stOneFlow "conv_1"
        { text := "pagar", sender := "s" } false
        (.error (.paymentError "PAYMENT_ERROR")) true false 0 "20250101_120000").1 =
      some (.text "Hubo un error al procesar tu pago. Por favor intenta de nuevo.") :=
  ⟨(message_handler_error_amended stOneFlow "conv_1" { text := "hola", sender := "s" }
      (.ok respSample) true 0 "ts").2.1 (by decide) (by decide) (by decide),
   (message_handler_error_amended stOneFlow "conv_1" { text := "pagar", sender := "s" }
      (.error (.paymentError "PAYMENT_ERROR")) true 0 "20250101_120000").2.2
      convWithCart (.paymentError "PAYMENT_ERROR") (by decide) (by decide) (by decide)
      (initiateCamisaErr stOneFlow "PAYMENT_ERROR" true 0 "20250101_120000")⟩
